import Mathlib

/-!
Shallow embedding of the user-management service in
`FastAPI과제/fastapi_assignment` (files `main.py` and `app/schemas/users.py`).

The store is a list of rows in insertion order together with the
auto-increment counter; each HTTP handler of `main.py` becomes a function
from the store (and the request's raw inputs) to a result paired with the
possibly-updated store.  Pydantic field constraints become decidable
predicates, `HTTPException` outcomes and 422 validation failures become an
error type.
-/

namespace FastApiUsers

/-- `GenderEnum` from `main.py`: exactly the two members `male`, `female`. -/
inductive GenderEnum where
  | male
  | female
deriving DecidableEq

/-- Pydantic coercion of a raw string into `GenderEnum`: any string other
than the two member values is a validation failure (`None` here). -/
def GenderEnum.ofString : String → Option GenderEnum
  | "male" => some GenderEnum.male
  | "female" => some GenderEnum.female
  | _ => none

/-- A row of the `users` table (`UserModel` in `main.py`). -/
structure UserModel where
  id : Nat
  username : String
  age : Int
  gender : GenderEnum
deriving DecidableEq

/-- `UserResponse` from `main.py`: the serialized record returned to the
caller. -/
structure UserResponse where
  id : Nat
  username : String
  age : Int
  gender : GenderEnum
deriving DecidableEq

/-- `UserResponse.model_validate(u)`: read each field off the row. -/
def UserModel.toResponse (u : UserModel) : UserResponse :=
  ⟨u.id, u.username, u.age, u.gender⟩

/-- `username` constraint of `UserCreateRequest`, `UserUpdateRequest` and
`UserQueryParams`: `min_length=1, max_length=50` (code points, as Python
`len`). -/
def validUsername (s : String) : Bool :=
  decide (1 ≤ s.length ∧ s.length ≤ 50)

/-- `age` constraint of `UserCreateRequest` and `UserUpdateRequest`:
`ge=0, le=120`. -/
def validCreateAge (a : Int) : Bool :=
  decide (0 ≤ a ∧ a ≤ 120)

/-- `age` constraint of `UserQueryParams` and the `/users/search` query:
`gt=0`. -/
def validSearchAge (a : Int) : Bool :=
  decide (0 < a)

/-- A validated `UserCreateRequest` body. -/
structure UserCreateRequest where
  username : String
  age : Int
  gender : GenderEnum
deriving DecidableEq

/-- Pydantic validation of a create body: every field required,
`username` length 1-50, `age` in [0, 120], `gender` a member string. -/
def UserCreateRequest.parse (username : String) (age : Int) (gender : String) :
    Option UserCreateRequest :=
  match GenderEnum.ofString gender with
  | none => none
  | some g =>
      if validUsername username && validCreateAge age then
        some ⟨username, age, g⟩
      else
        none

/-- A validated `UserUpdateRequest` body: both fields optional. -/
structure UserUpdateRequest where
  username : Option String
  age : Option Int
deriving DecidableEq

/-- Pydantic validation of an update body: absent fields pass; a present
field must satisfy the same constraint as on create. -/
def UserUpdateRequest.parse (username : Option String) (age : Option Int) :
    Option UserUpdateRequest :=
  if username.all validUsername && age.all validCreateAge then
    some ⟨username, age⟩
  else
    none

/-- Failure outcomes surfaced to the caller: a 422 validation failure
(Pydantic / `Path` / `Query` constraint) or a 404 `HTTPException` with its
`detail` string. -/
inductive ApiError where
  | validation
  | notFound (detail : String)
deriving DecidableEq

/-- The store: the rows of the `users` table in insertion order, and the
next id the auto-increment primary key will assign. -/
structure Store where
  users : List UserModel
  nextId : Nat
deriving DecidableEq

/-- The store before any create: no rows, ids start at 1. -/
def Store.empty : Store := ⟨[], 1⟩

/-- Modelled from the spec: in the relational variant the id is assigned by
the database's auto-increment primary key, which is not code of this
repository; per the spec ("`id`: integer, unique, assigned by the store on
creation, immutable afterward, monotonically increasing (never reused)")
and the in-memory variant's `user_id_counter` in `app/schemas/users.py`
(`fake_db[user_id_counter] = new_user; user_id_counter += 1`), the store
owns a counter that each create consumes and increments and that no other
operation changes. -/
def Store.create (s : Store) (req : UserCreateRequest) : Nat × Store :=
  (s.nextId,
   ⟨s.users ++ [⟨s.nextId, req.username, req.age, req.gender⟩], s.nextId + 1⟩)

/-- `POST /users` (`create_user` in `main.py`): validate the body, insert
the row, return `{id}`. -/
def createUserEndpoint (s : Store) (username : String) (age : Int)
    (gender : String) : Except ApiError Nat × Store :=
  match UserCreateRequest.parse username age gender with
  | none => (Except.error ApiError.validation, s)
  | some req =>
      let r := s.create req
      (Except.ok r.1, r.2)

/-- `GET /users` (`get_all_users`): 404 "No users found" when the table is
empty, otherwise every row serialized. -/
def getAllUsers (s : Store) : Except ApiError (List UserResponse) :=
  if s.users.isEmpty then Except.error (ApiError.notFound "No users found")
  else Except.ok (s.users.map UserModel.toResponse)

/-- `db.query(UserModel).filter(UserModel.id == user_id).first()`. -/
def findUser (s : Store) (userId : Int) : Option UserModel :=
  s.users.find? fun u => decide ((u.id : Int) = userId)

/-- `GET /users/{user_id}` (`get_user`): `Path(..., ge=1)` rejects ids
below 1 with a 422; otherwise 404 "User not found" when no row has the id,
else the row. -/
def getUser (s : Store) (userId : Int) : Except ApiError UserResponse :=
  if userId < 1 then Except.error ApiError.validation
  else
    match findUser s userId with
    | none => Except.error (ApiError.notFound "User not found")
    | some u => Except.ok u.toResponse

/-- The two `if data.<field> is not None` assignments of `update_user`:
overwrite exactly the present fields. -/
def UserModel.applyUpdate (u : UserModel) (d : UserUpdateRequest) : UserModel :=
  let u1 :=
    match d.username with
    | some un => { u with username := un }
    | none => u
  match d.age with
  | some a => { u1 with age := a }
  | none => u1

/-- Rewrite the first row satisfying `p` (the row `.first()` fetched and
`db.commit()` persisted); later rows are untouched. -/
def replaceFirst (p : UserModel → Bool) (f : UserModel → UserModel) :
    List UserModel → List UserModel
  | [] => []
  | u :: rest => if p u then f u :: rest else u :: replaceFirst p f rest

/-- `PUT /users/{user_id}` (`update_user`): `Path(..., ge=1)` and body
validation, then 404 when the id is absent, else overwrite the present
fields on the fetched row, persist, and return the updated row. -/
def updateUserEndpoint (s : Store) (userId : Int) (username : Option String)
    (age : Option Int) : Except ApiError UserResponse × Store :=
  if userId < 1 then (Except.error ApiError.validation, s)
  else
    match UserUpdateRequest.parse username age with
    | none => (Except.error ApiError.validation, s)
    | some d =>
        match findUser s userId with
        | none => (Except.error (ApiError.notFound "User not found"), s)
        | some u =>
            (Except.ok (u.applyUpdate d).toResponse,
             ⟨replaceFirst (fun v => decide ((v.id : Int) = userId))
                (fun v => v.applyUpdate d) s.users, s.nextId⟩)

/-- `DELETE /users/{user_id}` (`delete_user`): `Path(..., ge=1)`, then 404
when the id is absent, else remove the fetched row and return the
confirmation message. -/
def deleteUserEndpoint (s : Store) (userId : Int) :
    Except ApiError String × Store :=
  if userId < 1 then (Except.error ApiError.validation, s)
  else
    match findUser s userId with
    | none => (Except.error (ApiError.notFound "User not found"), s)
    | some _ =>
        (Except.ok ("User: " ++ toString userId ++ ", Successfully Deleted."),
         ⟨s.users.eraseP (fun v => decide ((v.id : Int) = userId)), s.nextId⟩)

/-- `filter_by(username=..., age=..., gender=...)`: exact equality on all
three fields. -/
def matchesQuery (username : String) (age : Int) (gender : GenderEnum)
    (u : UserModel) : Bool :=
  decide (u.username = username ∧ u.age = age ∧ u.gender = gender)

/-- `GET /users/search` (`search_users`): query constraints
(`min_length=1, max_length=50`, `gt=0`, enum membership — the enum being
already parsed here), then all rows equal on the three fields, with 404
"No matching users found" when none is. -/
def searchUsers (s : Store) (username : String) (age : Int)
    (gender : GenderEnum) : Except ApiError (List UserResponse) :=
  if validUsername username && validSearchAge age then
    let found := s.users.filter (matchesQuery username age gender)
    if found.isEmpty then
      Except.error (ApiError.notFound "No matching users found")
    else
      Except.ok (found.map UserModel.toResponse)
  else
    Except.error ApiError.validation

/-- One request against the mutating endpoints, with its raw inputs. -/
inductive Op where
  | createOp (username : String) (age : Int) (gender : String)
  | updateOp (userId : Int) (username : Option String) (age : Option Int)
  | deleteOp (userId : Int)

/-- The store after serving one request. -/
def Store.applyOp (s : Store) : Op → Store
  | Op.createOp un a g => (createUserEndpoint s un a g).2
  | Op.updateOp uid un a => (updateUserEndpoint s uid un a).2
  | Op.deleteOp uid => (deleteUserEndpoint s uid).2

/-- The store after serving a sequence of requests. -/
def Store.run (s : Store) : List Op → Store
  | [] => s
  | op :: rest => (s.applyOp op).run rest

/-- The ids handed out by the successful creates along a run, in order. -/
def issuedIds (s : Store) : List Op → List Nat
  | [] => []
  | op :: rest =>
      match op with
      | Op.createOp un a g =>
          match (createUserEndpoint s un a g).1 with
          | Except.ok uid => uid :: issuedIds (s.applyOp op) rest
          | Except.error _ => issuedIds (s.applyOp op) rest
      | _ => issuedIds (s.applyOp op) rest

/-- Store well-formedness: the invariants of section 3 of the spec, all
established by the operations themselves: ids are positive, unique, and
below the counter. -/
def Store.wf (s : Store) : Prop :=
  1 ≤ s.nextId ∧ (s.users.map UserModel.id).Nodup ∧
    ∀ i ∈ s.users.map UserModel.id, 1 ≤ i ∧ i < s.nextId

instance (s : Store) : Decidable s.wf := by
  unfold Store.wf
  infer_instance

/-! Helper lemmas shared by the claim theorems. -/

/-- A successful `.first()` fetch pins the requested id to the fetched
row's id, which well-formedness makes positive. -/
theorem findUser_spec (s : Store) (uid : Int) (u : UserModel) (hwf : s.wf)
    (hu : findUser s uid = some u) :
    u ∈ s.users ∧ uid = (u.id : Int) ∧ 1 ≤ uid := by
  have hu' : List.find? (fun v => decide ((v.id : Int) = uid)) s.users = some u := hu
  have hmem : u ∈ s.users := List.mem_of_find?_eq_some hu'
  have hid : (u.id : Int) = uid := by
    have hp := List.find?_some hu'
    simpa using hp
  have hpos : 1 ≤ u.id :=
    (hwf.2.2 u.id (List.mem_map_of_mem UserModel.id hmem)).1
  refine ⟨hmem, hid.symm, ?_⟩
  omega

/-- Rewriting the first match with a pointwise-identity function changes
nothing. -/
theorem replaceFirst_of_id (p : UserModel → Bool) (f : UserModel → UserModel)
    (hf : ∀ u, f u = u) (l : List UserModel) : replaceFirst p f l = l := by
  induction l with
  | nil => rfl
  | cons u rest ih =>
      simp only [replaceFirst, hf u, ih]
      split <;> rfl

/-- When `f` does not change whether a row matches, fetching after
rewriting the first match returns the rewritten row. -/
theorem find?_replaceFirst (p : UserModel → Bool) (f : UserModel → UserModel)
    (hp : ∀ u, p (f u) = p u) (l : List UserModel) :
    (replaceFirst p f l).find? p = (l.find? p).map f := by
  induction l with
  | nil => rfl
  | cons u rest ih =>
      by_cases h : p u = true
      · simp only [replaceFirst, if_pos h]
        rw [List.find?_cons_of_pos _ ((hp u).trans h), List.find?_cons_of_pos _ h]
        rfl
      · simp only [replaceFirst, if_neg h]
        rw [List.find?_cons_of_neg _ h, List.find?_cons_of_neg _ h, ih]

/-- After erasing the first row matching a predicate that pins down the id
from a table whose ids are unique, no matching row remains. -/
theorem find?_eraseP_of_nodup (p : UserModel → Bool) (l : List UserModel)
    (hnd : (l.map UserModel.id).Nodup)
    (hp : ∀ u v : UserModel, p u = true → p v = true → u.id = v.id) :
    (l.eraseP p).find? p = none := by
  induction l with
  | nil => rfl
  | cons u rest ih =>
      rw [List.map_cons, List.nodup_cons] at hnd
      cases hpu : p u with
      | true =>
          rw [List.eraseP_cons_of_pos hpu, List.find?_eq_none]
          intro w hw hpw
          have : w.id = u.id := hp w u hpw hpu
          exact hnd.1 (this ▸ List.mem_map_of_mem UserModel.id hw)
      | false =>
          have hpu' : ¬ p u = true := by simp [hpu]
          rw [List.eraseP_cons_of_neg hpu', List.find?_cons_of_neg _ hpu']
          exact ih hnd.2

/-- No endpoint ever decreases the auto-increment counter. -/
theorem applyOp_nextId_mono (s : Store) (op : Op) :
    s.nextId ≤ (s.applyOp op).nextId := by
  cases op with
  | createOp un a g =>
      simp only [Store.applyOp, createUserEndpoint]
      cases UserCreateRequest.parse un a g with
      | none => exact Nat.le_refl _
      | some req => exact Nat.le_succ _
  | updateOp uid un a =>
      simp only [Store.applyOp, updateUserEndpoint]
      split
      · exact Nat.le_refl _
      · split
        · exact Nat.le_refl _
        · split
          · exact Nat.le_refl _
          · exact Nat.le_refl _
  | deleteOp uid =>
      simp only [Store.applyOp, deleteUserEndpoint]
      split
      · exact Nat.le_refl _
      · split
        · exact Nat.le_refl _
        · exact Nat.le_refl _

/-- The counter never decreases along a run. -/
theorem run_nextId_mono (ops : List Op) (s : Store) :
    s.nextId ≤ (s.run ops).nextId := by
  induction ops generalizing s with
  | nil => exact Nat.le_refl _
  | cons op rest ih =>
      exact Nat.le_trans (applyOp_nextId_mono s op) (ih (s.applyOp op))

/-- Every id handed out along a run is below the final counter value. -/
theorem issuedIds_lt (ops : List Op) (s : Store) :
    ∀ i ∈ issuedIds s ops, i < (s.run ops).nextId := by
  induction ops generalizing s with
  | nil => intro i hi; simp [issuedIds] at hi
  | cons op rest ih =>
      intro i hi
      cases op with
      | createOp un a g =>
          simp only [issuedIds] at hi
          cases hp : UserCreateRequest.parse un a g with
          | none =>
              simp only [createUserEndpoint, hp] at hi
              exact ih (s.applyOp (Op.createOp un a g)) i hi
          | some req =>
              simp only [createUserEndpoint, hp, Store.create] at hi
              rcases List.mem_cons.mp hi with h | h
              · subst h
                have h1 : (s.applyOp (Op.createOp un a g)).nextId = s.nextId + 1 := by
                  simp only [Store.applyOp, createUserEndpoint, hp, Store.create]
                have h2 := run_nextId_mono rest (s.applyOp (Op.createOp un a g))
                have h3 : (s.run (Op.createOp un a g :: rest)).nextId =
                    ((s.applyOp (Op.createOp un a g)).run rest).nextId := rfl
                omega
              · exact ih (s.applyOp (Op.createOp un a g)) i h
      | updateOp uid un a =>
          simp only [issuedIds] at hi
          exact ih (s.applyOp (Op.updateOp uid un a)) i hi
      | deleteOp uid =>
          simp only [issuedIds] at hi
          exact ih (s.applyOp (Op.deleteOp uid)) i hi

/-! The claims. -/

/-- C1: for every store and every valid search query, the search operation
fails with 404 "No matching users found" exactly when no stored record
matches all three fields, returns on success exactly the stored records
whose username, age and gender equal the query values, and succeeds
whenever at least one record matches. -/
theorem search_users_correct (s : Store) (un : String) (a : Int)
    (g : GenderEnum) (hu : validUsername un = true)
    (ha : validSearchAge a = true) :
    (searchUsers s un a g = Except.error (ApiError.notFound "No matching users found") ↔
      ∀ u ∈ s.users, ¬(u.username = un ∧ u.age = a ∧ u.gender = g)) ∧
    (∀ rs, searchUsers s un a g = Except.ok rs →
      ∀ r, r ∈ rs ↔ ∃ u ∈ s.users,
        (u.username = un ∧ u.age = a ∧ u.gender = g) ∧ r = u.toResponse) ∧
    ((∃ u ∈ s.users, u.username = un ∧ u.age = a ∧ u.gender = g) →
      ∃ rs, searchUsers s un a g = Except.ok rs) := by
  have hcond : (validUsername un && validSearchAge a) = true := by
    rw [hu, ha]; rfl
  by_cases hemp : s.users.filter (matchesQuery un a g) = []
  · have hres : searchUsers s un a g =
        Except.error (ApiError.notFound "No matching users found") := by
      simp [searchUsers, hcond, hemp]
    have hnone : ∀ u ∈ s.users, ¬(u.username = un ∧ u.age = a ∧ u.gender = g) := by
      intro u humem hweq
      have := List.filter_eq_nil_iff.mp hemp u humem
      exact this (by simpa [matchesQuery] using hweq)
    refine ⟨⟨fun _ => hnone, fun _ => hres⟩, ?_, ?_⟩
    · intro rs h
      rw [hres] at h
      cases h
    · rintro ⟨u, humem, hweq⟩
      exact absurd (hnone u humem) (by simp [hweq])
  · have hres : searchUsers s un a g =
        Except.ok ((s.users.filter (matchesQuery un a g)).map UserModel.toResponse) := by
      have hne : (s.users.filter (matchesQuery un a g)).isEmpty = false := by
        cases hfe : (s.users.filter (matchesQuery un a g)).isEmpty
        · rfl
        · exact absurd (List.isEmpty_iff.mp hfe) hemp
      simp [searchUsers, hcond, hne]
    refine ⟨?_, ?_, fun _ => ⟨_, hres⟩⟩
    · rw [hres]
      constructor
      · intro h
        cases h
      · intro hall
        obtain ⟨u, humem⟩ := List.exists_mem_of_ne_nil _ hemp
        obtain ⟨humem', hpm⟩ := List.mem_filter.mp humem
        exact absurd (by simpa [matchesQuery] using hpm) (by simp [hall u humem'])
    · intro rs h
      rw [hres] at h
      injection h with h
      subst h
      intro r
      constructor
      · intro hr
        obtain ⟨u, humem, hru⟩ := List.mem_map.mp hr
        obtain ⟨humem', hpm⟩ := List.mem_filter.mp humem
        exact ⟨u, humem', by simpa [matchesQuery] using hpm, hru.symm⟩
      · rintro ⟨u, humem, hweq, hru⟩
        exact List.mem_map.mpr ⟨u, List.mem_filter.mpr
          ⟨humem, by simpa [matchesQuery] using hweq⟩, hru.symm⟩

/-- C1 witness: a store with one matching and one non-matching record. -/
theorem search_users_correct_witness :
    searchUsers ⟨[⟨1, "alice", 30, GenderEnum.female⟩,
        ⟨2, "bob", 30, GenderEnum.male⟩], 3⟩ "bob" 30 GenderEnum.female =
      Except.error (ApiError.notFound "No matching users found") :=
  (search_users_correct ⟨[⟨1, "alice", 30, GenderEnum.female⟩,
      ⟨2, "bob", 30, GenderEnum.male⟩], 3⟩ "bob" 30 GenderEnum.female
    (by decide) (by decide)).1.mpr (by decide)

/-- C2: after any sequence of requests starting from the empty store, a
successful create returns an id that is positive and strictly greater than
every id issued earlier in the run, including ids of records deleted since
(ids are never reused). -/
theorem create_id_monotone (ops : List Op) (un : String) (a : Int)
    (g : String) (hv : (UserCreateRequest.parse un a g).isSome = true) :
    ∃ uid, (createUserEndpoint (Store.empty.run ops) un a g).1 = Except.ok uid ∧
      0 < uid ∧ ∀ i ∈ issuedIds Store.empty ops, i < uid := by
  obtain ⟨req, hreq⟩ := Option.isSome_iff_exists.mp hv
  refine ⟨(Store.empty.run ops).nextId, ?_, ?_, ?_⟩
  · simp [createUserEndpoint, hreq, Store.create]
  · have h := run_nextId_mono ops Store.empty
    have h1 : Store.empty.nextId = 1 := rfl
    omega
  · exact issuedIds_lt ops Store.empty

/-- C2 witness: a run that creates twice and deletes the first record. -/
theorem create_id_monotone_witness :
    ∃ uid, (createUserEndpoint
        (Store.empty.run [Op.createOp "bob" 3 "male", Op.deleteOp 1,
          Op.createOp "eve" 4 "female"]) "carol" 5 "male").1 = Except.ok uid ∧
      0 < uid ∧ ∀ i ∈ issuedIds Store.empty
        [Op.createOp "bob" 3 "male", Op.deleteOp 1,
          Op.createOp "eve" 4 "female"], i < uid :=
  create_id_monotone [Op.createOp "bob" 3 "male", Op.deleteOp 1,
    Op.createOp "eve" 4 "female"] "carol" 5 "male" (by decide)

/-- C4: creating a user from a valid input and then fetching by the
returned id succeeds and returns a record whose username, age and gender
equal the input fields and whose id is the assigned id. -/
theorem create_then_get (s : Store) (hwf : s.wf) (un : String) (a : Int)
    (g : String) (gv : GenderEnum) (hu : validUsername un = true)
    (ha : validCreateAge a = true) (hg : GenderEnum.ofString g = some gv) :
    ∃ uid, (createUserEndpoint s un a g).1 = Except.ok uid ∧
      getUser (createUserEndpoint s un a g).2 (uid : Int) =
        Except.ok ⟨uid, un, a, gv⟩ := by
  have hcond : (validUsername un && validCreateAge a) = true := by
    rw [hu, ha]; rfl
  have hp : UserCreateRequest.parse un a g = some ⟨un, a, gv⟩ := by
    simp [UserCreateRequest.parse, hg, hcond]
  refine ⟨s.nextId, ?_, ?_⟩
  · simp [createUserEndpoint, hp, Store.create]
  · have hnlt : ¬ (s.nextId : Int) < 1 := by
      have := hwf.1
      omega
    have hfind : findUser ⟨s.users ++ [⟨s.nextId, un, a, gv⟩], s.nextId + 1⟩
        (s.nextId : Int) = some ⟨s.nextId, un, a, gv⟩ := by
      have h1 : List.find? (fun v => decide ((v.id : Int) = (s.nextId : Int)))
          s.users = none := by
        rw [List.find?_eq_none]
        intro w hw hpw
        have hwid : (w.id : Int) = (s.nextId : Int) := by simpa using hpw
        have hlt := (hwf.2.2 w.id (List.mem_map_of_mem UserModel.id hw)).2
        omega
      have h2 : List.find? (fun v => decide ((v.id : Int) = (s.nextId : Int)))
          [(⟨s.nextId, un, a, gv⟩ : UserModel)] = some ⟨s.nextId, un, a, gv⟩ :=
        List.find?_cons_of_pos _ (by simp)
      show List.find? _ (s.users ++ [(⟨s.nextId, un, a, gv⟩ : UserModel)]) = _
      rw [List.find?_append, h1, h2]
      rfl
    simp only [createUserEndpoint, hp, Store.create, getUser, if_neg hnlt, hfind,
      UserModel.toResponse]

/-- C4 witness. -/
theorem create_then_get_witness :
    ∃ uid, (createUserEndpoint Store.empty "bob" 25 "male").1 = Except.ok uid ∧
      getUser (createUserEndpoint Store.empty "bob" 25 "male").2 (uid : Int) =
        Except.ok ⟨uid, "bob", 25, GenderEnum.male⟩ :=
  create_then_get Store.empty (by decide) "bob" 25 "male" GenderEnum.male
    (by decide) (by decide) rfl

/-- C5: deleting a stored user id succeeds with the confirmation message
and a subsequent fetch by the same id fails with 404 "User not found". -/
theorem delete_then_get (s : Store) (hwf : s.wf) (uid : Int) (u : UserModel)
    (hu : findUser s uid = some u) :
    (deleteUserEndpoint s uid).1 =
        Except.ok ("User: " ++ toString uid ++ ", Successfully Deleted.") ∧
      getUser (deleteUserEndpoint s uid).2 uid =
        Except.error (ApiError.notFound "User not found") := by
  obtain ⟨hmem, hid, hpos⟩ := findUser_spec s uid u hwf hu
  have hnlt : ¬ uid < 1 := by omega
  have hinj : ∀ v w : UserModel, decide ((v.id : Int) = uid) = true →
      decide ((w.id : Int) = uid) = true → v.id = w.id := by
    intro v w h1 h2
    have h1' : (v.id : Int) = uid := by simpa using h1
    have h2' : (w.id : Int) = uid := by simpa using h2
    omega
  have herase : findUser
      ⟨s.users.eraseP (fun v => decide ((v.id : Int) = uid)), s.nextId⟩ uid = none :=
    find?_eraseP_of_nodup _ s.users hwf.2.1 hinj
  constructor
  · simp only [deleteUserEndpoint, if_neg hnlt, hu]
  · simp only [deleteUserEndpoint, if_neg hnlt, hu, getUser, herase]

/-- C5 witness. -/
theorem delete_then_get_witness :
    (deleteUserEndpoint ⟨[⟨1, "alice", 30, GenderEnum.female⟩], 2⟩ 1).1 =
        Except.ok ("User: " ++ toString (1 : Int) ++ ", Successfully Deleted.") ∧
      getUser (deleteUserEndpoint ⟨[⟨1, "alice", 30, GenderEnum.female⟩], 2⟩ 1).2 1 =
        Except.error (ApiError.notFound "User not found") :=
  delete_then_get ⟨[⟨1, "alice", 30, GenderEnum.female⟩], 2⟩ (by decide) 1
    ⟨1, "alice", 30, GenderEnum.female⟩ rfl

/-- C6: on an existing user, an update with any combination of present and
absent fields returns and stores a record whose username is the supplied
one if present (otherwise unchanged), whose age is the supplied one if
present (otherwise unchanged), and whose gender and id are never modified;
the counter is untouched.  In particular supplying only age leaves
username and gender unchanged, and supplying only username leaves age and
gender unchanged. -/
theorem update_frame (s : Store) (hwf : s.wf) (uid : Int) (u : UserModel)
    (hu : findUser s uid = some u) (un : Option String) (a : Option Int)
    (hun : un.all validUsername = true) (ha : a.all validCreateAge = true) :
    ∃ s2, updateUserEndpoint s uid un a =
        (Except.ok ⟨u.id, un.getD u.username, a.getD u.age, u.gender⟩, s2) ∧
      findUser s2 uid = some ⟨u.id, un.getD u.username, a.getD u.age, u.gender⟩ ∧
      s2.nextId = s.nextId := by
  obtain ⟨hmem, hid, hpos⟩ := findUser_spec s uid u hwf hu
  have hnlt : ¬ uid < 1 := by omega
  have hparse : UserUpdateRequest.parse un a = some ⟨un, a⟩ := by
    simp [UserUpdateRequest.parse, hun, ha]
  have happ : ∀ v : UserModel, v.applyUpdate ⟨un, a⟩ =
      ⟨v.id, un.getD v.username, a.getD v.age, v.gender⟩ := by
    intro v
    cases un <;> cases a <;> rfl
  have hpres : ∀ v : UserModel,
      (fun w : UserModel => decide ((w.id : Int) = uid)) (v.applyUpdate ⟨un, a⟩) =
        (fun w : UserModel => decide ((w.id : Int) = uid)) v := by
    intro v
    cases un <;> cases a <;> rfl
  have hfind : List.find?
        (fun w : UserModel => decide ((w.id : Int) = uid))
        (replaceFirst (fun w : UserModel => decide ((w.id : Int) = uid))
          (fun v => v.applyUpdate ⟨un, a⟩) s.users) =
      some (u.applyUpdate ⟨un, a⟩) := by
    rw [find?_replaceFirst _ _ hpres s.users]
    have hu' : List.find? (fun w : UserModel => decide ((w.id : Int) = uid))
        s.users = some u := hu
    rw [hu']
    rfl
  refine ⟨⟨replaceFirst (fun w : UserModel => decide ((w.id : Int) = uid))
      (fun v => v.applyUpdate ⟨un, a⟩) s.users, s.nextId⟩, ?_, ?_, rfl⟩
  · simp only [updateUserEndpoint, if_neg hnlt, hparse, hu, happ u,
      UserModel.toResponse]
  · show List.find? _ _ = _
    rw [hfind, happ u]

/-- C6 witness: supplying only age. -/
theorem update_frame_witness :
    ∃ s2, updateUserEndpoint ⟨[⟨1, "alice", 30, GenderEnum.female⟩], 2⟩ 1
        none (some 40) =
        (Except.ok ⟨1, "alice", 40, GenderEnum.female⟩, s2) ∧
      findUser s2 1 = some ⟨1, "alice", 40, GenderEnum.female⟩ ∧
      s2.nextId = 2 :=
  update_frame ⟨[⟨1, "alice", 30, GenderEnum.female⟩], 2⟩ (by decide) 1
    ⟨1, "alice", 30, GenderEnum.female⟩ rfl none (some 40) (by decide) (by decide)

/-- C8: age validation is asymmetric: the create and update bodies accept
exactly ages in [0, 120], while the search query accepts exactly ages
strictly greater than 0; at age 0 create accepts and search rejects. -/
theorem age_validation_asymmetry (s : Store) (a : Int) :
    ((createUserEndpoint s "bob" a "male").1 = Except.error ApiError.validation ↔
      ¬(0 ≤ a ∧ a ≤ 120)) ∧
    ((updateUserEndpoint s 1 none (some a)).1 = Except.error ApiError.validation ↔
      ¬(0 ≤ a ∧ a ≤ 120)) ∧
    (searchUsers s "bob" a GenderEnum.male = Except.error ApiError.validation ↔
      ¬(0 < a)) := by
  have hb : validUsername "bob" = true := by decide
  refine ⟨?_, ?_, ?_⟩
  · by_cases hv : (0 ≤ a ∧ a ≤ 120)
    · have hparse : UserCreateRequest.parse "bob" a "male" =
          some ⟨"bob", a, GenderEnum.male⟩ := by
        simp [UserCreateRequest.parse, GenderEnum.ofString, hb,
          validCreateAge, hv]
      simp [createUserEndpoint, hparse, hv]
    · have hparse : UserCreateRequest.parse "bob" a "male" = none := by
        simp [UserCreateRequest.parse, GenderEnum.ofString, validCreateAge, hv]
      simp [createUserEndpoint, hparse, hv]
  · by_cases hv : (0 ≤ a ∧ a ≤ 120)
    · have hparse : UserUpdateRequest.parse none (some a) = some ⟨none, some a⟩ := by
        simp [UserUpdateRequest.parse, validCreateAge, hv]
      have h1 : ¬ (1 : Int) < 1 := by omega
      simp only [updateUserEndpoint, if_neg h1, hparse]
      cases hfu : findUser s 1 with
      | none => simp [hv]
      | some u => simp [hv]
    · have hparse : UserUpdateRequest.parse none (some a) = none := by
        simp [UserUpdateRequest.parse, validCreateAge, hv]
      have h1 : ¬ (1 : Int) < 1 := by omega
      simp [updateUserEndpoint, if_neg h1, hparse, hv]
  · by_cases hv : (0 < a)
    · have hcond : (validUsername "bob" && validSearchAge a) = true := by
        simp [hb, validSearchAge, hv]
      simp only [searchUsers, hcond, if_true]
      cases hfe : (s.users.filter (matchesQuery "bob" a GenderEnum.male)).isEmpty <;>
        simp [hfe, hv]
    · have hcond : (validUsername "bob" && validSearchAge a) = false := by
        simp [hb, validSearchAge, hv]
      simp [searchUsers, hcond, hv]

/-- C8 witness: at age 0, create accepts while search rejects with the
validation error. -/
theorem age_validation_asymmetry_witness :
    (createUserEndpoint Store.empty "bob" 0 "male").1 ≠
        Except.error ApiError.validation ∧
      searchUsers Store.empty "bob" 0 GenderEnum.male =
        Except.error ApiError.validation :=
  ⟨fun hc => ((age_validation_asymmetry Store.empty 0).1.mp hc) (by decide),
   (age_validation_asymmetry Store.empty 0).2.2.mpr (by decide)⟩

/-- C3: for every existing user id, an update request in which every
optional field is absent succeeds, returns the record, and leaves the
stored record (indeed the whole store) unchanged. -/
theorem update_all_absent_noop (s : Store) (hwf : s.wf) (uid : Int)
    (u : UserModel) (hu : findUser s uid = some u) :
    updateUserEndpoint s uid none none = (Except.ok u.toResponse, s) := by
  obtain ⟨hmem, hid, hpos⟩ := findUser_spec s uid u hwf hu
  have hnlt : ¬ uid < 1 := by omega
  have hparse : UserUpdateRequest.parse none none = some ⟨none, none⟩ := rfl
  have happ : ∀ v : UserModel, v.applyUpdate ⟨none, none⟩ = v := fun v => rfl
  simp only [updateUserEndpoint, if_neg hnlt, hparse, hu,
    replaceFirst_of_id _ _ happ, happ u]

/-- C3 witness. -/
theorem update_all_absent_noop_witness :
    updateUserEndpoint ⟨[⟨1, "alice", 30, GenderEnum.female⟩], 2⟩ 1 none none =
      (Except.ok ⟨1, "alice", 30, GenderEnum.female⟩,
       ⟨[⟨1, "alice", 30, GenderEnum.female⟩], 2⟩) :=
  update_all_absent_noop ⟨[⟨1, "alice", 30, GenderEnum.female⟩], 2⟩
    (by decide) 1 ⟨1, "alice", 30, GenderEnum.female⟩ rfl

/-- C7: listing a store with zero records fails with 404 "No users found"
rather than returning an empty collection; listing a store with at least
one record returns every stored record. -/
theorem list_users_policy (s : Store) :
    (s.users = [] → getAllUsers s = Except.error (ApiError.notFound "No users found")) ∧
    (s.users ≠ [] → getAllUsers s = Except.ok (s.users.map UserModel.toResponse)) := by
  constructor
  · intro h
    rw [getAllUsers, if_pos (by simp [h])]
  · intro h
    rw [getAllUsers, if_neg (by simpa using h)]

/-- C7 witness: the empty store yields the 404, a one-record store yields
the record. -/
theorem list_users_policy_witness :
    getAllUsers Store.empty = Except.error (ApiError.notFound "No users found") ∧
    getAllUsers ⟨[⟨1, "alice", 30, GenderEnum.female⟩], 2⟩ =
      Except.ok [⟨1, "alice", 30, GenderEnum.female⟩] :=
  ⟨(list_users_policy Store.empty).1 rfl,
   (list_users_policy ⟨[⟨1, "alice", 30, GenderEnum.female⟩], 2⟩).2 (by decide)⟩

/-- C9: create-input validation accepts exactly the boundary values:
age 0 and 120 accepted, 121 and -1 rejected; username of length 50
accepted, length 51 rejected; gender "other" rejected. -/
theorem create_validation_boundaries :
    (UserCreateRequest.parse "bob" 0 "male").isSome = true ∧
    (UserCreateRequest.parse "bob" 120 "male").isSome = true ∧
    UserCreateRequest.parse "bob" 121 "male" = none ∧
    UserCreateRequest.parse "bob" (-1) "male" = none ∧
    (UserCreateRequest.parse (String.mk (List.replicate 50 'a')) 30 "male").isSome = true ∧
    UserCreateRequest.parse (String.mk (List.replicate 51 'a')) 30 "male" = none ∧
    UserCreateRequest.parse "bob" 30 "other" = none := by
  decide

/-- C10: a get, update or delete whose path id is below 1 fails with the
`Path(..., ge=1)` validation error, not 404, and leaves the store
unchanged. -/
theorem nonpositive_id_rejected (s : Store) (uid : Int) (h : uid < 1)
    (un : Option String) (a : Option Int) :
    getUser s uid = Except.error ApiError.validation ∧
    updateUserEndpoint s uid un a = (Except.error ApiError.validation, s) ∧
    deleteUserEndpoint s uid = (Except.error ApiError.validation, s) := by
  refine ⟨?_, ?_, ?_⟩
  · rw [getUser, if_pos h]
  · rw [updateUserEndpoint, if_pos h]
  · rw [deleteUserEndpoint, if_pos h]

/-- C10 witness at id 0. -/
theorem nonpositive_id_rejected_witness :
    getUser ⟨[⟨1, "alice", 30, GenderEnum.female⟩], 2⟩ 0 =
        Except.error ApiError.validation ∧
    updateUserEndpoint ⟨[⟨1, "alice", 30, GenderEnum.female⟩], 2⟩ 0 none (some 40) =
        (Except.error ApiError.validation, ⟨[⟨1, "alice", 30, GenderEnum.female⟩], 2⟩) ∧
    deleteUserEndpoint ⟨[⟨1, "alice", 30, GenderEnum.female⟩], 2⟩ 0 =
        (Except.error ApiError.validation, ⟨[⟨1, "alice", 30, GenderEnum.female⟩], 2⟩) :=
  nonpositive_id_rejected ⟨[⟨1, "alice", 30, GenderEnum.female⟩], 2⟩ 0
    (by decide) none (some 40)

end FastApiUsers
